import Mathlib

/-!
Verification of the transport-adapter core of the `mcp-cli` repository
(package `pkg/adapter`): connection lifecycle, readiness probing for
subprocess transports, capability operations, and the adapter factory.

The Go code is shallowly embedded as pure Lean functions.  External
collaborators (the transport library `mcp-go`, the Go standard library's
`time.ParseDuration`) are modelled as oracles: their outcomes are inputs
to the embedded functions.  Go `error` values are modelled as
`Option String` (`none` = `nil`), with the exact strings the code builds
via `fmt.Errorf`; `%w` wrapping is string concatenation of the cause.
Mutable adapter state (`BaseAdapter.connected` / `serverInfo`) is passed
and returned explicitly.  Go `time.Duration` is `Int` (nanoseconds).
-/

/-- Character-list prefix test; mirrors Go `strings.HasPrefix` byte
comparison at the level of characters. -/
def goHasPrefix (s pre : String) : Bool :=
  List.isPrefixOf pre.data s.data

/-- Auxiliary scan for the substring test: does `sub` occur starting at
some position of `l`? -/
def containsAux (sub : List Char) : List Char → Bool
  | [] => List.isPrefixOf sub []
  | c :: cs => List.isPrefixOf sub (c :: cs) || containsAux sub cs

/-- Mirrors Go `strings.Contains(s, sub)`. -/
def strContains (s sub : String) : Bool :=
  containsAux sub.data s.data

/-- Go `unicode.IsSpace` restricted to the characters relevant here
(ASCII whitespace plus NEL and NBSP). -/
def goIsSpace (c : Char) : Bool :=
  c = ' ' || c = '\t' || c = '\n' || c = (Char.ofNat 11) || c = (Char.ofNat 12) ||
  c = '\r' || c = (Char.ofNat 133) || c = (Char.ofNat 160)

/-- Accumulator pass for `goFields`: split a character list into maximal
runs of non-whitespace characters. -/
def fieldsAux (acc : List Char) : List Char → List String
  | [] => if acc = [] then [] else [String.mk acc.reverse]
  | c :: cs =>
    if goIsSpace c then
      if acc = [] then fieldsAux [] cs
      else String.mk acc.reverse :: fieldsAux [] cs
    else fieldsAux (c :: acc) cs

/-- Mirrors Go `strings.Fields`: whitespace-separated tokens, no empty
tokens. -/
def goFields (s : String) : List String :=
  fieldsAux [] s.data

/-- Go `fmt` rendering of a `[]string` with the `%v` verb. -/
def goFmtStrList (xs : List String) : String :=
  "[" ++ String.intercalate " " xs ++ "]"

/-- The single-quote character, used in the process-exit error message. -/
def squote : String :=
  String.singleton (Char.ofNat 39)

/-- Server identity exchanged in the initialize handshake
(`mcp.Implementation`). -/
structure Implementation where
  name : String
  version : String
deriving Repr, DecidableEq

/-- Embedding of `adapter.Config` (adapter.go): immutable construction
configuration.  `timeout` is Go `time.Duration` in nanoseconds. -/
structure Config where
  serverURL : String := ""
  command : String := ""
  args : List String := []
  env : List String := []
  timeout : Int := 0
  verbose : Bool := false
deriving Repr, DecidableEq

/-- The 30-second default timeout (`30 * time.Second`). -/
def duration30s : Int := 30000000000

/-- Embedding of the mutable part of `BaseAdapter`: the `connected` flag
and the stored server identity pointer (`none` = nil pointer). -/
structure ConnState where
  connected : Bool
  serverInfo : Option Implementation
deriving Repr, DecidableEq

/-- Embedding of `BaseAdapter.IsConnected` (named apart from Mathlib's
`IsConnected`). -/
def baseIsConnected (st : ConnState) : Bool :=
  st.connected

/-- Embedding of `BaseAdapter.GetServerInfo`: error when not connected,
otherwise the stored identity. -/
def GetServerInfo (st : ConnState) : Except String (Option Implementation) :=
  if !st.connected then .error "not connected to server"
  else .ok st.serverInfo

/-- Embedding of `isProcessExitError` (stdio adapter): substring
classification of an error as evidence the subprocess exited.  The
argument is an Option to mirror the Go nil check. -/
def isProcessExitError (err : Option String) : Bool :=
  match err with
  | none => false
  | some errStr =>
    strContains errStr "process" || strContains errStr "exit" ||
    strContains errStr "pipe" || strContains errStr "broken" ||
    strContains errStr "EOF"

/-- The inter-attempt delays of `waitForProcessReady`, in nanoseconds:
100ms, 500ms, 1s. -/
def delays : List Int := [100000000, 500000000, 1000000000]

/-- Oracle for one run of the readiness prober: whether the caller's
context is observed cancelled during the delay preceding attempt `i`
(the `select` on `ctx.Done()`), the context's error string, and the
outcome of the probe `Initialize` exchange of attempt `i`
(`none` = success). -/
structure ProbeEnv where
  cancelledAt : Nat → Bool
  ctxErr : String
  probe : Nat → Option String

/-- Observable transport-facing events of the readiness prober: a sleep
of a given duration, or the issuing of probe attempt `i` (0-based). -/
inductive Ev where
  | sleep (d : Int)
  | probe (i : Nat)
deriving Repr, DecidableEq

/-- The error message returned when a probe error is exit-classified
(`fmt.Errorf("process exited unexpectedly - check command '%s %v'", ...)`). -/
def processExitedMsg (command : String) (args : List String) : String :=
  "process exited unexpectedly - check command " ++ squote ++ command ++ " " ++
    goFmtStrList args ++ squote

/-- The error message returned when all probe attempts are exhausted. -/
def notReadyMsg : String :=
  "process did not become ready within expected time"

/-- Loop body of `StdioAdapter.waitForProcessReady`: iterate over the
remaining delays with `i` the current attempt index; returns the Go
error (`none` = ready) together with the list of transport events
(sleeps and issued probes). -/
def waitAttempts (cfg : Config) (env : ProbeEnv) : Nat → List Int → Option String × List Ev
  | _, [] => (some notReadyMsg, [])
  | i, delay :: rest =>
    if env.cancelledAt i then (some env.ctxErr, [])
    else
      match env.probe i with
      | none => (none, [.sleep delay, .probe i])
      | some e =>
        if isProcessExitError (some e) then
          (some (processExitedMsg cfg.command cfg.args), [.sleep delay, .probe i])
        else
          let r := waitAttempts cfg env (i + 1) rest
          (r.1, .sleep delay :: .probe i :: r.2)

/-- Embedding of `StdioAdapter.waitForProcessReady`. -/
def waitForProcessReady (cfg : Config) (env : ProbeEnv) : Option String × List Ev :=
  waitAttempts cfg env 0 delays

/-- Number of probe attempts issued in an event list. -/
def probeCount (t : List Ev) : Nat :=
  t.countP fun e => match e with | .probe _ => true | _ => false

/-- Oracle for one run of `StdioAdapter.Connect`: outcome of
`NewStdioMCPClient`, the probe environment, and the outcome of the real
`Initialize` handshake. -/
structure StdioWorld where
  newClientErr : Option String
  env : ProbeEnv
  initResult : Except String Implementation

/-- Oracle for one run of `HTTPAdapter.Connect`. -/
structure HTTPWorld where
  newClientErr : Option String
  initResult : Except String Implementation

/-- Embedding of `StdioAdapter.Connect` (the stdio adapter with
readiness probing).  Returns the Go error, the new adapter state, and
the number of times `client.Close()` was invoked on this code path. -/
def stdioConnect (cfg : Config) (st : ConnState) (w : StdioWorld) :
    Option String × ConnState × Nat :=
  if st.connected then (some "already connected", st, 0)
  else
    match w.newClientErr with
    | some e => (some ("failed to create stdio client: " ++ e), st, 0)
    | none =>
      match (waitForProcessReady cfg w.env).1 with
      | some e => (some e, st, 1)
      | none =>
        match w.initResult with
        | .error e => (some ("failed to initialize: " ++ e), st, 1)
        | .ok info => (none, { connected := true, serverInfo := some info }, 0)

/-- Embedding of `HTTPAdapter.Connect`. -/
def httpConnect (st : ConnState) (w : HTTPWorld) :
    Option String × ConnState × Nat :=
  if st.connected then (some "already connected", st, 0)
  else
    match w.newClientErr with
    | some e => (some ("failed to create HTTP client: " ++ e), st, 0)
    | none =>
      match w.initResult with
      | .error e => (some ("failed to initialize: " ++ e), st, 1)
      | .ok info => (none, { connected := true, serverInfo := some info }, 0)

/-- Embedding of `StdioAdapter.Disconnect`: `closeErr` is the outcome of
`client.Close()`. -/
def stdioDisconnect (st : ConnState) (closeErr : Option String) :
    Option String × ConnState :=
  if !st.connected then (none, st)
  else (closeErr, { connected := false, serverInfo := none })

/-- Embedding of `HTTPAdapter.Disconnect`. -/
def httpDisconnect (st : ConnState) (closeErr : Option String) :
    Option String × ConnState :=
  if !st.connected then (none, st)
  else (closeErr, { connected := false, serverInfo := none })

/-- Embedding of `StdioAdapter.ListTools`.  The payload type is a
parameter because the entity records (`mcp.Tool` and friends) are opaque
pass-through data; `tr` is the outcome of the transport exchange
`client.ListTools` (only consulted on the connected path).  The returned
state is the adapter state after the call: the body never writes it. -/
def stdioListTools (st : ConnState) (tr : Except String α) :
    Except String α × ConnState :=
  if !st.connected then (.error "not connected to server", st)
  else
    match tr with
    | .error e => (.error ("failed to list tools: " ++ e), st)
    | .ok result => (.ok result, st)

/-- Embedding of `StdioAdapter.CallTool`; `arguments` is the open
string-keyed map of arbitrary values (`map[string]any`) forwarded to the
transport (it flows only into the request the oracle `tr` answers). -/
def stdioCallTool (st : ConnState) (name : String)
    (arguments : List (String × β)) (tr : Except String α) :
    Except String α × ConnState :=
  if !st.connected then (.error "not connected to server", st)
  else
    match tr with
    | .error e => (.error ("failed to call tool " ++ name ++ ": " ++ e), st)
    | .ok result => (.ok result, st)

/-- Embedding of `StdioAdapter.ListResources`. -/
def stdioListResources (st : ConnState) (tr : Except String α) :
    Except String α × ConnState :=
  if !st.connected then (.error "not connected to server", st)
  else
    match tr with
    | .error e => (.error ("failed to list resources: " ++ e), st)
    | .ok result => (.ok result, st)

/-- Embedding of `StdioAdapter.ReadResource`. -/
def stdioReadResource (st : ConnState) (uri : String) (tr : Except String α) :
    Except String α × ConnState :=
  if !st.connected then (.error "not connected to server", st)
  else
    match tr with
    | .error e => (.error ("failed to read resource " ++ uri ++ ": " ++ e), st)
    | .ok result => (.ok result, st)

/-- Embedding of `StdioAdapter.ListPrompts`. -/
def stdioListPrompts (st : ConnState) (tr : Except String α) :
    Except String α × ConnState :=
  if !st.connected then (.error "not connected to server", st)
  else
    match tr with
    | .error e => (.error ("failed to list prompts: " ++ e), st)
    | .ok result => (.ok result, st)

/-- Embedding of `StdioAdapter.GetPrompt`. -/
def stdioGetPrompt (st : ConnState) (name : String)
    (arguments : List (String × String)) (tr : Except String α) :
    Except String α × ConnState :=
  if !st.connected then (.error "not connected to server", st)
  else
    match tr with
    | .error e => (.error ("failed to get prompt " ++ name ++ ": " ++ e), st)
    | .ok result => (.ok result, st)

/-- Embedding of `HTTPAdapter.ListTools` (body identical to the stdio
variant in the source). -/
def httpListTools (st : ConnState) (tr : Except String α) :
    Except String α × ConnState :=
  if !st.connected then (.error "not connected to server", st)
  else
    match tr with
    | .error e => (.error ("failed to list tools: " ++ e), st)
    | .ok result => (.ok result, st)

/-- Embedding of `HTTPAdapter.CallTool`. -/
def httpCallTool (st : ConnState) (name : String)
    (arguments : List (String × β)) (tr : Except String α) :
    Except String α × ConnState :=
  if !st.connected then (.error "not connected to server", st)
  else
    match tr with
    | .error e => (.error ("failed to call tool " ++ name ++ ": " ++ e), st)
    | .ok result => (.ok result, st)

/-- Embedding of `HTTPAdapter.ListResources`. -/
def httpListResources (st : ConnState) (tr : Except String α) :
    Except String α × ConnState :=
  if !st.connected then (.error "not connected to server", st)
  else
    match tr with
    | .error e => (.error ("failed to list resources: " ++ e), st)
    | .ok result => (.ok result, st)

/-- Embedding of `HTTPAdapter.ReadResource`. -/
def httpReadResource (st : ConnState) (uri : String) (tr : Except String α) :
    Except String α × ConnState :=
  if !st.connected then (.error "not connected to server", st)
  else
    match tr with
    | .error e => (.error ("failed to read resource " ++ uri ++ ": " ++ e), st)
    | .ok result => (.ok result, st)

/-- Embedding of `HTTPAdapter.ListPrompts`. -/
def httpListPrompts (st : ConnState) (tr : Except String α) :
    Except String α × ConnState :=
  if !st.connected then (.error "not connected to server", st)
  else
    match tr with
    | .error e => (.error ("failed to list prompts: " ++ e), st)
    | .ok result => (.ok result, st)

/-- Embedding of `HTTPAdapter.GetPrompt`. -/
def httpGetPrompt (st : ConnState) (name : String)
    (arguments : List (String × String)) (tr : Except String α) :
    Except String α × ConnState :=
  if !st.connected then (.error "not connected to server", st)
  else
    match tr with
    | .error e => (.error ("failed to get prompt " ++ name ++ ": " ++ e), st)
    | .ok result => (.ok result, st)

/-- Result of adapter construction: the concrete variant with its
captured configuration. -/
inductive Adapter where
  | stdio (config : Config)
  | http (config : Config)
deriving Repr, DecidableEq

/-- Configuration captured by a constructed adapter. -/
def adapterConfig : Adapter → Config
  | .stdio c => c
  | .http c => c

/-- Embedding of `NewStdioAdapter`: requires a command; a zero timeout
defaults to 30 seconds. -/
def NewStdioAdapter (config : Config) : Except String Adapter :=
  if config.command = "" then .error "command is required for stdio adapter"
  else if config.timeout = 0 then .ok (.stdio { config with timeout := duration30s })
  else .ok (.stdio config)

/-- Embedding of `NewHTTPAdapter`: requires a server URL; a zero timeout
defaults to 30 seconds. -/
def NewHTTPAdapter (config : Config) : Except String Adapter :=
  if config.serverURL = "" then .error "server URL is required for HTTP adapter"
  else if config.timeout = 0 then .ok (.http { config with timeout := duration30s })
  else .ok (.http config)

/-- Embedding of `NewAdapter` (adapter.go): dispatch on the adapter-type
discriminator string. -/
def NewAdapter (adapterType : String) (config : Config) : Except String Adapter :=
  if adapterType = "stdio" then NewStdioAdapter config
  else if adapterType = "http" ∨ adapterType = "streamable" then NewHTTPAdapter config
  else .error ("unsupported adapter type: " ++ adapterType)

/-- Kind-specific part of `AdapterFactory.ValidateConfig`: the `switch`
statement, before the common timeout check. -/
def validateKind (adapterType : String) (config : Config) : Option String :=
  if adapterType = "stdio" then
    if config.command = "" then some "command is required for stdio adapter" else none
  else if adapterType = "http" ∨ adapterType = "streamable" then
    if config.serverURL = "" then some "server URL is required for HTTP adapter"
    else if !(goHasPrefix config.serverURL "http://") &&
        !(goHasPrefix config.serverURL "https://") then
      some "server URL must start with http:// or https://"
    else none
  else some ("unsupported adapter type: " ++ adapterType)

/-- Embedding of `AdapterFactory.ValidateConfig`: kind-specific checks,
then the timeout positivity check.  Pure: constructs nothing. -/
def ValidateConfig (adapterType : String) (config : Config) : Option String :=
  match validateKind adapterType config with
  | some e => some e
  | none => if config.timeout ≤ 0 then some "timeout must be positive" else none

/-- Embedding of `AdapterFactory.CreateFromURL` (the spec's
`CreateFromEndpoint`): URL-scheme dispatch, else shell-style splitting
into command and arguments. -/
def CreateFromURL (url : String) (verbose : Bool) : Except String Adapter :=
  if goHasPrefix url "http://" || goHasPrefix url "https://" then
    NewHTTPAdapter { serverURL := url, verbose := verbose, timeout := duration30s }
  else
    match goFields url with
    | [] => .error ("invalid command: " ++ url)
    | cmd :: rest =>
      NewStdioAdapter
        { command := cmd, args := rest, verbose := verbose, timeout := duration30s }

/-- Dynamic values of the weakly-typed configuration map
(`map[string]interface{}`), restricted to the dynamic types the factory
inspects; `other` stands for every other dynamic type. -/
inductive GoValue where
  | str (s : String)
  | boolean (b : Bool)
  | dur (d : Int)
  | strSlice (xs : List String)
  | other
deriving Repr, DecidableEq

/-- Embedding of the factory helper `getBool`: type-assert to bool, else
the default. -/
def getBool (config : List (String × GoValue)) (key : String)
    (defaultValue : Bool) : Bool :=
  match config.lookup key with
  | some (.boolean b) => b
  | _ => defaultValue

/-- Embedding of the factory helper `getDuration`.  The call to the
external standard-library function `time.ParseDuration` is abstracted as
the oracle `parseDuration` (`none` models a parse error). -/
def getDuration (parseDuration : String → Option Int)
    (config : List (String × GoValue)) (key : String)
    (defaultValue : Int) : Int :=
  match config.lookup key with
  | some (.dur d) => d
  | some (.str s) =>
    match parseDuration s with
    | some d => d
    | none => defaultValue
  | _ => defaultValue

/-- Embedding of `AdapterFactory.CreateFromConfig`: extract and coerce
fields from the weakly-typed map, then construct the variant selected by
the `"type"` entry. -/
def CreateFromConfig (parseDuration : String → Option Int)
    (config : List (String × GoValue)) : Except String Adapter :=
  match config.lookup "type" with
  | some (.str adapterType) =>
    let verbose := getBool config "verbose" false
    let timeout := getDuration parseDuration config "timeout" duration30s
    if adapterType = "stdio" then
      match config.lookup "command" with
      | some (.str command) =>
        let args :=
          match config.lookup "args" with
          | some (.strSlice xs) => xs
          | _ => []
        let env :=
          match config.lookup "env" with
          | some (.strSlice xs) => xs
          | _ => []
        NewStdioAdapter
          { command := command, args := args, env := env,
            verbose := verbose, timeout := timeout }
      | _ => .error "command is required for stdio adapter"
    else if adapterType = "http" ∨ adapterType = "streamable" then
      match config.lookup "url" with
      | some (.str url) =>
        NewHTTPAdapter { serverURL := url, verbose := verbose, timeout := timeout }
      | _ => .error "URL is required for HTTP adapter"
    else .error ("unsupported adapter type: " ++ adapterType)
  | _ => .error "adapter type is required"

/-- Concrete probe environment whose probes always fail with a non-exit
error. -/
def envAllFail : ProbeEnv where
  cancelledAt := fun _ => false
  ctxErr := "context canceled"
  probe := fun _ => some "x"

/-- Concrete probe environment whose first probe fails with an
exit-classified error. -/
def envExitFirst : ProbeEnv where
  cancelledAt := fun _ => false
  ctxErr := "context canceled"
  probe := fun _ => some "broken pipe"

/-- Concrete probe environment whose first probe succeeds. -/
def envOkFirst : ProbeEnv where
  cancelledAt := fun _ => false
  ctxErr := "context canceled"
  probe := fun _ => none

/-- Concrete probe environment whose context is cancelled during the
first delay. -/
def envCancelFirst : ProbeEnv where
  cancelledAt := fun _ => true
  ctxErr := "context canceled"
  probe := fun _ => none

/-- Full interleaved event list of a prober run that reaches exhaustion:
each probe attempt directly preceded by its delay. -/
def fullTrace : List Ev :=
  [.sleep 100000000, .probe 0, .sleep 500000000, .probe 1,
    .sleep 1000000000, .probe 2]

/-- C3: on an adapter already in the Connected state, a second `Connect`
fails with the AlreadyConnected error, leaves the state and server
identity unchanged, and performs no transport I/O: for both variants the
result is a value independent of the transport oracle `w`, with zero
`Close` invocations. -/
theorem connect_already_connected
    (cfg : Config) (st : ConnState) (h : st.connected = true) :
    (∀ w : StdioWorld, stdioConnect cfg st w = (some "already connected", st, 0)) ∧
    (∀ w : HTTPWorld, httpConnect st w = (some "already connected", st, 0)) := by
  constructor
  · intro w
    simp [stdioConnect, h]
  · intro w
    simp [httpConnect, h]

/-- Witness for C3 at a concrete connected adapter and concrete
transport oracles. -/
theorem connect_already_connected_witness :
    stdioConnect {} { connected := true, serverInfo := some ⟨"srv", "1.0"⟩ }
      { newClientErr := none,
        env := { cancelledAt := fun _ => false, ctxErr := "context canceled",
                 probe := fun _ => none },
        initResult := .ok ⟨"srv", "1.0"⟩ } =
      (some "already connected", { connected := true, serverInfo := some ⟨"srv", "1.0"⟩ }, 0) ∧
    httpConnect { connected := true, serverInfo := some ⟨"srv", "1.0"⟩ }
      { newClientErr := none, initResult := .ok ⟨"srv", "1.0"⟩ } =
      (some "already connected", { connected := true, serverInfo := some ⟨"srv", "1.0"⟩ }, 0) := by
  refine ⟨?_, ?_⟩
  · exact (connect_already_connected {} _ rfl).1 _
  · exact (connect_already_connected {} _ rfl).2 _

/-- C2: when `Connect` has created the transport session (client
creation succeeded, and for stdio the readiness probe succeeded) and the
initialize handshake then fails, both variants invoke the session's
`Close` exactly once, return the wrapped handshake cause, and leave the
adapter Disconnected with no server identity. -/
theorem connect_handshake_failure_cleanup
    (cfg : Config) (st : ConnState) (cause : String)
    (hc : st.connected = false) (hs : st.serverInfo = none) :
    (∀ w : StdioWorld, w.newClientErr = none →
      (waitForProcessReady cfg w.env).1 = none →
      w.initResult = .error cause →
      stdioConnect cfg st w =
        (some ("failed to initialize: " ++ cause),
          { connected := false, serverInfo := none }, 1)) ∧
    (∀ w : HTTPWorld, w.newClientErr = none →
      w.initResult = .error cause →
      httpConnect st w =
        (some ("failed to initialize: " ++ cause),
          { connected := false, serverInfo := none }, 1)) := by
  have hst : st = { connected := false, serverInfo := none } := by
    cases st
    simp_all
  subst hst
  constructor
  · intro w h1 h2 h3
    simp [stdioConnect, h1, h2, h3]
  · intro w h1 h2
    simp [httpConnect, h1, h2]

/-- Witness for C2 at concrete oracles whose handshake fails. -/
theorem connect_handshake_failure_cleanup_witness :
    stdioConnect {} { connected := false, serverInfo := none }
      { newClientErr := none,
        env := { cancelledAt := fun _ => false, ctxErr := "context canceled",
                 probe := fun _ => none },
        initResult := .error "boom" } =
      (some ("failed to initialize: " ++ "boom"),
        { connected := false, serverInfo := none }, 1) ∧
    httpConnect { connected := false, serverInfo := none }
      { newClientErr := none, initResult := .error "boom" } =
      (some ("failed to initialize: " ++ "boom"),
        { connected := false, serverInfo := none }, 1) := by
  refine ⟨?_, ?_⟩
  · exact (connect_handshake_failure_cleanup {} _ "boom" rfl rfl).1 _ rfl rfl rfl
  · exact (connect_handshake_failure_cleanup {} _ "boom" rfl rfl).2 _ rfl rfl

/-- C4: on a Disconnected adapter every capability operation of both
variants, and `GetServerInfo`, fails with the NotConnected error and
performs no transport I/O: the result is independent of the universally
quantified transport outcome `tr`, and the state is returned
unchanged. -/
theorem ops_not_connected
    (st : ConnState) (h : st.connected = false) (α β : Type)
    (tr : Except String α) (name uri : String)
    (argsT : List (String × β)) (argsP : List (String × String)) :
    stdioListTools st tr = (.error "not connected to server", st) ∧
    stdioCallTool st name argsT tr = (.error "not connected to server", st) ∧
    stdioListResources st tr = (.error "not connected to server", st) ∧
    stdioReadResource st uri tr = (.error "not connected to server", st) ∧
    stdioListPrompts st tr = (.error "not connected to server", st) ∧
    stdioGetPrompt st name argsP tr = (.error "not connected to server", st) ∧
    httpListTools st tr = (.error "not connected to server", st) ∧
    httpCallTool st name argsT tr = (.error "not connected to server", st) ∧
    httpListResources st tr = (.error "not connected to server", st) ∧
    httpReadResource st uri tr = (.error "not connected to server", st) ∧
    httpListPrompts st tr = (.error "not connected to server", st) ∧
    httpGetPrompt st name argsP tr = (.error "not connected to server", st) ∧
    GetServerInfo st = .error "not connected to server" := by
  refine ⟨?_, ?_, ?_, ?_, ?_, ?_, ?_, ?_, ?_, ?_, ?_, ?_, ?_⟩ <;>
    simp [stdioListTools, stdioCallTool, stdioListResources, stdioReadResource,
      stdioListPrompts, stdioGetPrompt, httpListTools, httpCallTool,
      httpListResources, httpReadResource, httpListPrompts, httpGetPrompt,
      GetServerInfo, h]

/-- Witness for C4 at a concrete fresh adapter state. -/
theorem ops_not_connected_witness :
    stdioListTools { connected := false, serverInfo := none } (.ok ()) =
      (.error "not connected to server", { connected := false, serverInfo := none }) ∧
    GetServerInfo { connected := false, serverInfo := none } =
      .error "not connected to server" := by
  have h := ops_not_connected { connected := false, serverInfo := none } rfl
    Unit Unit (.ok ()) "t" "uri" [] []
  exact ⟨h.1, h.2.2.2.2.2.2.2.2.2.2.2.2⟩

/-- C5: `Disconnect` is idempotent: on a Disconnected adapter it returns
no error and changes nothing, for any number of repeated calls; on a
Connected adapter it unconditionally clears the connected flag and the
identity even when the transport release reports an error, and returns
that release error. -/
theorem disconnect_idempotent
    (st : ConnState) (closeErr : Option String) :
    (st.connected = false →
      stdioDisconnect st closeErr = (none, st) ∧
      httpDisconnect st closeErr = (none, st) ∧
      (∀ n : Nat, (fun s => (stdioDisconnect s closeErr).2)^[n] st = st) ∧
      (∀ n : Nat, (fun s => (httpDisconnect s closeErr).2)^[n] st = st)) ∧
    (st.connected = true →
      stdioDisconnect st closeErr = (closeErr, { connected := false, serverInfo := none }) ∧
      httpDisconnect st closeErr = (closeErr, { connected := false, serverInfo := none })) := by
  constructor
  · intro h
    refine ⟨by simp [stdioDisconnect, h], by simp [httpDisconnect, h], ?_, ?_⟩
    · intro n
      induction n with
      | zero => simp
      | succ n ih =>
        rw [Function.iterate_succ_apply', ih]
        simp [stdioDisconnect, h]
    · intro n
      induction n with
      | zero => simp
      | succ n ih =>
        rw [Function.iterate_succ_apply', ih]
        simp [httpDisconnect, h]
  · intro h
    exact ⟨by simp [stdioDisconnect, h], by simp [httpDisconnect, h]⟩

/-- Witness for C5: a disconnected adapter after five repeated
disconnects, and a connected adapter releasing with an error. -/
theorem disconnect_idempotent_witness :
    stdioDisconnect { connected := false, serverInfo := none } none =
      (none, { connected := false, serverInfo := none }) ∧
    (fun s => (stdioDisconnect s none).2)^[5]
      { connected := false, serverInfo := none } =
      { connected := false, serverInfo := none } ∧
    stdioDisconnect { connected := true, serverInfo := some ⟨"srv", "1.0"⟩ }
      (some "close failed") =
      (some "close failed", { connected := false, serverInfo := none }) := by
  refine ⟨?_, ?_, ?_⟩
  · exact ((disconnect_idempotent _ none).1 rfl).1
  · exact ((disconnect_idempotent _ none).1 rfl).2.2.1 5
  · exact ((disconnect_idempotent _ (some "close failed")).2 rfl).1

/-- C8: on a Connected adapter, a capability call whose transport
exchange fails returns the wrapped operation error and leaves the
connection state unchanged for both variants: the returned state is the
input state, so the adapter stays Connected with its identity intact. -/
theorem capability_failure_keeps_connection
    (st : ConnState) (h : st.connected = true) (α β : Type) (e : String)
    (name uri : String) (argsT : List (String × β)) (argsP : List (String × String)) :
    stdioListTools st (.error e : Except String α) =
      (.error ("failed to list tools: " ++ e), st) ∧
    stdioCallTool st name argsT (.error e : Except String α) =
      (.error ("failed to call tool " ++ name ++ ": " ++ e), st) ∧
    stdioListResources st (.error e : Except String α) =
      (.error ("failed to list resources: " ++ e), st) ∧
    stdioReadResource st uri (.error e : Except String α) =
      (.error ("failed to read resource " ++ uri ++ ": " ++ e), st) ∧
    stdioListPrompts st (.error e : Except String α) =
      (.error ("failed to list prompts: " ++ e), st) ∧
    stdioGetPrompt st name argsP (.error e : Except String α) =
      (.error ("failed to get prompt " ++ name ++ ": " ++ e), st) ∧
    httpListTools st (.error e : Except String α) =
      (.error ("failed to list tools: " ++ e), st) ∧
    httpCallTool st name argsT (.error e : Except String α) =
      (.error ("failed to call tool " ++ name ++ ": " ++ e), st) ∧
    httpListResources st (.error e : Except String α) =
      (.error ("failed to list resources: " ++ e), st) ∧
    httpReadResource st uri (.error e : Except String α) =
      (.error ("failed to read resource " ++ uri ++ ": " ++ e), st) ∧
    httpListPrompts st (.error e : Except String α) =
      (.error ("failed to list prompts: " ++ e), st) ∧
    httpGetPrompt st name argsP (.error e : Except String α) =
      (.error ("failed to get prompt " ++ name ++ ": " ++ e), st) := by
  refine ⟨?_, ?_, ?_, ?_, ?_, ?_, ?_, ?_, ?_, ?_, ?_, ?_⟩ <;>
    simp [stdioListTools, stdioCallTool, stdioListResources, stdioReadResource,
      stdioListPrompts, stdioGetPrompt, httpListTools, httpCallTool,
      httpListResources, httpReadResource, httpListPrompts, httpGetPrompt, h]

/-- Witness for C8 at a concrete connected adapter and a concrete failed
tool call. -/
theorem capability_failure_keeps_connection_witness :
    stdioCallTool (β := Unit)
      { connected := true, serverInfo := some ⟨"srv", "1.0"⟩ } "mytool" []
      (.error "timeout" : Except String Unit) =
      (.error ("failed to call tool " ++ "mytool" ++ ": " ++ "timeout"),
        { connected := true, serverInfo := some ⟨"srv", "1.0"⟩ }) := by
  exact (capability_failure_keeps_connection
    { connected := true, serverInfo := some ⟨"srv", "1.0"⟩ } rfl
    Unit Unit "timeout" "mytool" "u" [] []).2.1

/-- Every token produced by `fieldsAux` is a nonempty string. -/
theorem fieldsAux_mem_ne_empty (cs : List Char) :
    ∀ (acc : List Char) (x : String), x ∈ fieldsAux acc cs → x ≠ "" := by
  induction cs with
  | nil =>
    intro acc x hx
    by_cases h : acc = []
    · simp [fieldsAux, h] at hx
    · simp [fieldsAux, h] at hx
      subst hx
      intro he
      apply h
      have hd := congrArg String.data he
      simpa using hd
  | cons c cs ih =>
    intro acc x hx
    by_cases hsp : goIsSpace c
    · by_cases h : acc = []
      · simp [fieldsAux, hsp, h] at hx
        exact ih [] x hx
      · simp [fieldsAux, hsp, h] at hx
        rcases hx with hx | hx
        · subst hx
          intro he
          apply h
          have hd := congrArg String.data he
          simpa using hd
        · exact ih [] x hx
    · simp [fieldsAux, hsp] at hx
      exact ih (c :: acc) x hx

/-- The first token of a nonempty `goFields` split is nonempty. -/
theorem goFields_head_ne_empty (s : String) (cmd : String) (rest : List String)
    (h : goFields s = cmd :: rest) : cmd ≠ "" := by
  apply fieldsAux_mem_ne_empty s.data [] cmd
  rw [show fieldsAux [] s.data = goFields s from rfl, h]
  exact List.mem_cons_self _ _

/-- A string with the scheme prefix is nonempty. -/
theorem goHasPrefix_scheme_ne_empty (url : String)
    (h : (goHasPrefix url "http://" || goHasPrefix url "https://") = true) :
    url ≠ "" := by
  intro he
  subst he
  revert h
  decide

/-- C6: `CreateFromURL` (the spec's `CreateFromEndpoint`) dispatches on
the URL scheme: an http/https-prefixed string yields the HTTP variant
with exactly that URL; any other string is split on whitespace, an empty
token list fails with the InvalidEndpoint error, and otherwise the stdio
variant is built with the first token as command and the rest as
arguments, propagating the verbose flag; in particular the two concrete
examples of the spec. -/
theorem createFromEndpoint_dispatch (url : String) (verbose : Bool) :
    ((goHasPrefix url "http://" || goHasPrefix url "https://") = true →
      CreateFromURL url verbose =
        .ok (.http { serverURL := url, verbose := verbose, timeout := duration30s })) ∧
    ((goHasPrefix url "http://" || goHasPrefix url "https://") = false →
      (goFields url = [] →
        CreateFromURL url verbose = .error ("invalid command: " ++ url)) ∧
      (∀ cmd rest, goFields url = cmd :: rest →
        CreateFromURL url verbose =
          .ok (.stdio { command := cmd, args := rest, verbose := verbose,
                        timeout := duration30s }))) ∧
    CreateFromURL "http://localhost:8080/mcp" false =
      .ok (.http { serverURL := "http://localhost:8080/mcp", verbose := false,
                   timeout := duration30s }) ∧
    CreateFromURL "python server.py --port 8080" true =
      .ok (.stdio { command := "python", args := ["server.py", "--port", "8080"],
                    verbose := true, timeout := duration30s }) := by
  refine ⟨?_, ?_, ?_, ?_⟩
  · intro h
    have hne := goHasPrefix_scheme_ne_empty url h
    simp [CreateFromURL, h, NewHTTPAdapter, hne, duration30s]
  · intro h
    constructor
    · intro h0
      simp [CreateFromURL, h, h0]
    · intro cmd rest hsplit
      have hcmd := goFields_head_ne_empty url cmd rest hsplit
      simp [CreateFromURL, h, hsplit, NewStdioAdapter, hcmd, duration30s]
  · rfl
  · rfl

/-- Witness for C6 at the spec's concrete stdio endpoint, applying the
general dispatch part. -/
theorem createFromEndpoint_dispatch_witness :
    (goHasPrefix "python server.py --port 8080" "http://" ||
      goHasPrefix "python server.py --port 8080" "https://") = false ∧
    CreateFromURL "python server.py --port 8080" true =
      .ok (.stdio { command := "python", args := ["server.py", "--port", "8080"],
                    verbose := true, timeout := duration30s }) := by
  refine ⟨by decide, ?_⟩
  exact ((createFromEndpoint_dispatch "python server.py --port 8080" true).2.1
    (by decide)).2 "python" ["server.py", "--port", "8080"] (by decide)

/-- C7: for a configuration missing the required field of its
discriminator, `ValidateConfig` and `NewAdapter` (with the variant
constructors) both fail with that field's error; both fail with the
unsupported-kind error on an unrecognized discriminator; and
`ValidateConfig`, which is pure (it only inspects the config and returns
an optional error), rejects every configuration whose timeout is not
strictly positive. -/
theorem validate_and_create_reject (config : Config) (t : String) :
    (config.command = "" →
      ValidateConfig "stdio" config = some "command is required for stdio adapter" ∧
      NewAdapter "stdio" config = .error "command is required for stdio adapter") ∧
    (config.serverURL = "" →
      ValidateConfig "http" config = some "server URL is required for HTTP adapter" ∧
      ValidateConfig "streamable" config = some "server URL is required for HTTP adapter" ∧
      NewAdapter "http" config = .error "server URL is required for HTTP adapter" ∧
      NewAdapter "streamable" config = .error "server URL is required for HTTP adapter") ∧
    (t ≠ "stdio" → t ≠ "http" → t ≠ "streamable" →
      ValidateConfig t config = some ("unsupported adapter type: " ++ t) ∧
      NewAdapter t config = .error ("unsupported adapter type: " ++ t)) ∧
    (config.timeout ≤ 0 → (ValidateConfig t config).isSome = true) := by
  refine ⟨?_, ?_, ?_, ?_⟩
  · intro h
    constructor
    · simp [ValidateConfig, validateKind, h]
    · simp [NewAdapter, NewStdioAdapter, h]
  · intro h
    refine ⟨?_, ?_, ?_, ?_⟩ <;>
      simp [ValidateConfig, validateKind, NewAdapter, NewHTTPAdapter, h]
  · intro h1 h2 h3
    constructor
    · simp [ValidateConfig, validateKind, h1, h2, h3]
    · simp [NewAdapter, h1, h2, h3]
  · intro ht
    rcases hvk : validateKind t config with _ | e
    · simp [ValidateConfig, hvk, ht]
    · simp [ValidateConfig, hvk]

/-- Witness for C7 at concrete configurations: empty command, empty URL,
unknown kind, and non-positive timeout. -/
theorem validate_and_create_reject_witness :
    (ValidateConfig "stdio" {} = some "command is required for stdio adapter" ∧
      NewAdapter "stdio" {} = .error "command is required for stdio adapter") ∧
    (ValidateConfig "http" {} = some "server URL is required for HTTP adapter" ∧
      NewAdapter "http" {} = .error "server URL is required for HTTP adapter") ∧
    (ValidateConfig "websocket" {} = some ("unsupported adapter type: " ++ "websocket") ∧
      NewAdapter "websocket" {} = .error ("unsupported adapter type: " ++ "websocket")) ∧
    (ValidateConfig "stdio" { command := "echo", timeout := -1 }).isSome = true := by
  refine ⟨?_, ?_, ?_, ?_⟩
  · exact (validate_and_create_reject {} "x").1 rfl
  · have h := (validate_and_create_reject {} "x").2.1 rfl
    exact ⟨h.1, h.2.2.1⟩
  · exact (validate_and_create_reject {} "websocket").2.2.1
      (by decide) (by decide) (by decide)
  · exact (validate_and_create_reject { command := "echo", timeout := -1 } "stdio").2.2.2
      (by decide)

/-- C10: in `CreateFromConfig`, a `"timeout"` entry that is neither a
native duration nor a string the duration parser accepts — a malformed
duration string included — silently falls back to the 30-second default:
`getDuration` returns the default, and the constructed adapter (stdio or
http path, given its required fields) carries a 30-second timeout with
no error on account of the timeout entry. -/
theorem createFromConfig_timeout_fallback
    (parse : String → Option Int) (config : List (String × GoValue)) (v : GoValue)
    (hv : config.lookup "timeout" = some v)
    (hnd : ∀ d : Int, v ≠ .dur d)
    (hns : ∀ s : String, v = .str s → parse s = none) :
    getDuration parse config "timeout" duration30s = duration30s ∧
    (∀ cmd, config.lookup "type" = some (.str "stdio") →
      config.lookup "command" = some (.str cmd) → cmd ≠ "" →
      ∃ a, CreateFromConfig parse config = .ok a ∧
        (adapterConfig a).timeout = duration30s) ∧
    (∀ url, config.lookup "type" = some (.str "http") →
      config.lookup "url" = some (.str url) → url ≠ "" →
      ∃ a, CreateFromConfig parse config = .ok a ∧
        (adapterConfig a).timeout = duration30s) := by
  have hgd : getDuration parse config "timeout" duration30s = duration30s := by
    rcases v with s | b | d | xs | _
    · simp [getDuration, hv, hns s rfl]
    · simp [getDuration, hv]
    · exact absurd rfl (hnd d)
    · simp [getDuration, hv]
    · simp [getDuration, hv]
  refine ⟨hgd, ?_, ?_⟩
  · intro cmd htype hcmd hne
    have h30 : ¬(duration30s = (0 : Int)) := by decide
    simp [CreateFromConfig, htype, hcmd, hgd, NewStdioAdapter, hne, h30, adapterConfig]
  · intro url htype hurl hne
    have h30 : ¬(duration30s = (0 : Int)) := by decide
    simp [CreateFromConfig, htype, hurl, hgd, NewHTTPAdapter, hne, h30, adapterConfig]

/-- Witness for C10: a malformed duration string under a parse oracle
that rejects it, on an otherwise valid stdio configuration. -/
theorem createFromConfig_timeout_fallback_witness :
    getDuration (fun _ => none)
      [("type", .str "stdio"), ("command", .str "echo"), ("timeout", .str "banana")]
      "timeout" duration30s = duration30s ∧
    (∃ a, CreateFromConfig (fun _ => none)
      [("type", .str "stdio"), ("command", .str "echo"), ("timeout", .str "banana")] =
        .ok a ∧ (adapterConfig a).timeout = duration30s) := by
  have h := createFromConfig_timeout_fallback (fun _ => none)
    [("type", .str "stdio"), ("command", .str "echo"), ("timeout", .str "banana")]
    (.str "banana") rfl (by intro d hd; cases hd) (by intro s _; rfl)
  exact ⟨h.1, h.2.1 "echo" rfl rfl (by decide)⟩

/-- Bound on the probes issued by the prober loop: at most one per
remaining delay. -/
theorem waitAttempts_probeCount_le (cfg : Config) (env : ProbeEnv) :
    ∀ (ds : List Int) (i : Nat), probeCount (waitAttempts cfg env i ds).2 ≤ ds.length := by
  intro ds
  induction ds with
  | nil =>
    intro i
    simp [waitAttempts, probeCount]
  | cons d ds ih =>
    intro i
    by_cases hc : env.cancelledAt i
    · simp [waitAttempts, hc, probeCount]
    · rcases hp : env.probe i with _ | e
      · simp [waitAttempts, hc, hp, probeCount]
      · by_cases hex : isProcessExitError (some e)
        · simp [waitAttempts, hc, hp, hex, probeCount]
        · have h1 := ih (i + 1)
          simp [waitAttempts, hc, hp, hex, probeCount, List.countP_cons] at h1 ⊢
          omega

/-- C1: the readiness prober makes at most three probe attempts.  If
every attempt's probe fails with a non-exit-classified error, the prober
returns the ProcessNotReady error after exactly three attempts and the
stdio `Connect` fails with that error; if the probe of the first reached
attempt `j` fails with an exit-classified error, the prober returns the
ProcessUnavailable error immediately, after `j + 1` attempts; if that
probe succeeds, readiness is confirmed immediately after `j + 1`
attempts. -/
theorem readiness_probe_attempts (cfg : Config) (env : ProbeEnv) :
    probeCount (waitForProcessReady cfg env).2 ≤ 3 ∧
    ((∀ i, env.cancelledAt i = false) →
      (∀ i, i < 3 → env.probe i ≠ none ∧ isProcessExitError (env.probe i) = false) →
      (waitForProcessReady cfg env).1 = some notReadyMsg ∧
      probeCount (waitForProcessReady cfg env).2 = 3 ∧
      (∀ (st : ConnState) (ir : Except String Implementation), st.connected = false →
        stdioConnect cfg st { newClientErr := none, env := env, initResult := ir } =
          (some notReadyMsg, st, 1))) ∧
    (∀ j, j < 3 → (∀ i, i ≤ j → env.cancelledAt i = false) →
      (∀ i, i < j → env.probe i ≠ none ∧ isProcessExitError (env.probe i) = false) →
      (isProcessExitError (env.probe j) = true →
        (waitForProcessReady cfg env).1 = some (processExitedMsg cfg.command cfg.args) ∧
        probeCount (waitForProcessReady cfg env).2 = j + 1) ∧
      (env.probe j = none →
        (waitForProcessReady cfg env).1 = none ∧
        probeCount (waitForProcessReady cfg env).2 = j + 1)) := by
  refine ⟨?_, ?_, ?_⟩
  · simpa [delays] using waitAttempts_probeCount_le cfg env delays 0
  · intro hcanc hfail
    obtain ⟨e0, he0⟩ := Option.ne_none_iff_exists'.mp (hfail 0 (by omega)).1
    obtain ⟨e1, he1⟩ := Option.ne_none_iff_exists'.mp (hfail 1 (by omega)).1
    obtain ⟨e2, he2⟩ := Option.ne_none_iff_exists'.mp (hfail 2 (by omega)).1
    have hx0 := (hfail 0 (by omega)).2
    have hx1 := (hfail 1 (by omega)).2
    have hx2 := (hfail 2 (by omega)).2
    rw [he0] at hx0
    rw [he1] at hx1
    rw [he2] at hx2
    have hw : waitForProcessReady cfg env =
        (some notReadyMsg,
          [.sleep 100000000, .probe 0, .sleep 500000000, .probe 1,
            .sleep 1000000000, .probe 2]) := by
      simp [waitForProcessReady, delays, waitAttempts, hcanc 0, hcanc 1, hcanc 2,
        he0, he1, he2, hx0, hx1, hx2]
    refine ⟨by rw [hw], by rw [hw]; rfl, ?_⟩
    intro st ir hst
    simp [stdioConnect, hst, hw]
  · intro j hj hcanc hfail
    interval_cases j
    · constructor
      · intro hex
        rcases hp : env.probe 0 with _ | e
        · rw [hp] at hex
          simp [isProcessExitError] at hex
        · rw [hp] at hex
          have hw : waitForProcessReady cfg env =
              (some (processExitedMsg cfg.command cfg.args),
                [.sleep 100000000, .probe 0]) := by
            simp [waitForProcessReady, delays, waitAttempts, hcanc 0 (by omega), hp, hex]
          exact ⟨by rw [hw], by rw [hw]; rfl⟩
      · intro hp
        have hw : waitForProcessReady cfg env = (none, [.sleep 100000000, .probe 0]) := by
          simp [waitForProcessReady, delays, waitAttempts, hcanc 0 (by omega), hp]
        exact ⟨by rw [hw], by rw [hw]; rfl⟩
    · obtain ⟨e0, he0⟩ := Option.ne_none_iff_exists'.mp (hfail 0 (by omega)).1
      have hx0 := (hfail 0 (by omega)).2
      rw [he0] at hx0
      constructor
      · intro hex
        rcases hp : env.probe 1 with _ | e
        · rw [hp] at hex
          simp [isProcessExitError] at hex
        · rw [hp] at hex
          have hw : waitForProcessReady cfg env =
              (some (processExitedMsg cfg.command cfg.args),
                [.sleep 100000000, .probe 0, .sleep 500000000, .probe 1]) := by
            simp [waitForProcessReady, delays, waitAttempts, hcanc 0 (by omega),
              hcanc 1 (by omega), he0, hx0, hp, hex]
          exact ⟨by rw [hw], by rw [hw]; rfl⟩
      · intro hp
        have hw : waitForProcessReady cfg env =
            (none, [.sleep 100000000, .probe 0, .sleep 500000000, .probe 1]) := by
          simp [waitForProcessReady, delays, waitAttempts, hcanc 0 (by omega),
            hcanc 1 (by omega), he0, hx0, hp]
        exact ⟨by rw [hw], by rw [hw]; rfl⟩
    · obtain ⟨e0, he0⟩ := Option.ne_none_iff_exists'.mp (hfail 0 (by omega)).1
      obtain ⟨e1, he1⟩ := Option.ne_none_iff_exists'.mp (hfail 1 (by omega)).1
      have hx0 := (hfail 0 (by omega)).2
      have hx1 := (hfail 1 (by omega)).2
      rw [he0] at hx0
      rw [he1] at hx1
      constructor
      · intro hex
        rcases hp : env.probe 2 with _ | e
        · rw [hp] at hex
          simp [isProcessExitError] at hex
        · rw [hp] at hex
          have hw : waitForProcessReady cfg env =
              (some (processExitedMsg cfg.command cfg.args),
                [.sleep 100000000, .probe 0, .sleep 500000000, .probe 1,
                  .sleep 1000000000, .probe 2]) := by
            simp [waitForProcessReady, delays, waitAttempts, hcanc 0 (by omega),
              hcanc 1 (by omega), hcanc 2 (by omega), he0, he1, hx0, hx1, hp, hex]
          exact ⟨by rw [hw], by rw [hw]; rfl⟩
      · intro hp
        have hw : waitForProcessReady cfg env =
            (none, [.sleep 100000000, .probe 0, .sleep 500000000, .probe 1,
              .sleep 1000000000, .probe 2]) := by
          simp [waitForProcessReady, delays, waitAttempts, hcanc 0 (by omega),
            hcanc 1 (by omega), hcanc 2 (by omega), he0, he1, hx0, hx1, hp]
        exact ⟨by rw [hw], by rw [hw]; rfl⟩

/-- Witness for C1: a prober whose probes always fail with a non-exit
error stops with the ProcessNotReady error after exactly three attempts
(and `Connect` propagates it); a first-attempt broken-pipe failure stops
with the ProcessUnavailable error after one attempt; a first-attempt
success confirms readiness after one attempt. -/
theorem readiness_probe_attempts_witness :
    ((waitForProcessReady {} envAllFail).1 = some notReadyMsg ∧
      probeCount (waitForProcessReady {} envAllFail).2 = 3 ∧
      (∀ (st : ConnState) (ir : Except String Implementation), st.connected = false →
        stdioConnect {} st { newClientErr := none, env := envAllFail, initResult := ir } =
          (some notReadyMsg, st, 1))) ∧
    ((waitForProcessReady {} envExitFirst).1 = some (processExitedMsg "" []) ∧
      probeCount (waitForProcessReady {} envExitFirst).2 = 0 + 1) ∧
    ((waitForProcessReady {} envOkFirst).1 = none ∧
      probeCount (waitForProcessReady {} envOkFirst).2 = 0 + 1) := by
  refine ⟨?_, ?_, ?_⟩
  · exact (readiness_probe_attempts {} envAllFail).2.1 (fun i => rfl)
      (fun i hi => ⟨by simp [envAllFail], show isProcessExitError (some "x") = false by decide⟩)
  · exact ((readiness_probe_attempts {} envExitFirst).2.2 0 (by omega)
      (fun i hi => rfl) (fun i hi => by omega)).1 (by decide)
  · exact ((readiness_probe_attempts {} envOkFirst).2.2 0 (by omega)
      (fun i hi => rfl) (fun i hi => by omega)).2 rfl

/-- C9: the prober's event list is always an even-length prefix of the
fully interleaved sleep/probe sequence — so every probe attempt,
including the first, is directly preceded by its delay (100ms, 500ms, 1s
respectively) and no probe is issued before the first 100ms delay
completes; and when the caller's context is cancelled during the delay
of the reached attempt `j`, the prober returns the context's
cancellation error without issuing probe attempt `j`. -/
theorem readiness_delay_before_probe (cfg : Config) (env : ProbeEnv) :
    (∃ k, k ≤ 3 ∧ (waitForProcessReady cfg env).2 = fullTrace.take (2 * k)) ∧
    (∀ j, j < 3 →
      (∀ i, i < j → env.cancelledAt i = false) →
      (∀ i, i < j → env.probe i ≠ none ∧ isProcessExitError (env.probe i) = false) →
      env.cancelledAt j = true →
      (waitForProcessReady cfg env).1 = some env.ctxErr ∧
      (waitForProcessReady cfg env).2 = fullTrace.take (2 * j) ∧
      Ev.probe j ∉ (waitForProcessReady cfg env).2) := by
  constructor
  · by_cases hc0 : env.cancelledAt 0
    · refine ⟨0, by omega, ?_⟩
      simp [waitForProcessReady, delays, waitAttempts, hc0, fullTrace]
    · rcases hp0 : env.probe 0 with _ | e0
      · refine ⟨1, by omega, ?_⟩
        simp [waitForProcessReady, delays, waitAttempts, hc0, hp0, fullTrace]
      · by_cases hx0 : isProcessExitError (some e0)
        · refine ⟨1, by omega, ?_⟩
          simp [waitForProcessReady, delays, waitAttempts, hc0, hp0, hx0, fullTrace]
        · by_cases hc1 : env.cancelledAt 1
          · refine ⟨1, by omega, ?_⟩
            simp [waitForProcessReady, delays, waitAttempts, hc0, hp0, hx0, hc1, fullTrace]
          · rcases hp1 : env.probe 1 with _ | e1
            · refine ⟨2, by omega, ?_⟩
              simp [waitForProcessReady, delays, waitAttempts, hc0, hp0, hx0, hc1,
                hp1, fullTrace]
            · by_cases hx1 : isProcessExitError (some e1)
              · refine ⟨2, by omega, ?_⟩
                simp [waitForProcessReady, delays, waitAttempts, hc0, hp0, hx0, hc1,
                  hp1, hx1, fullTrace]
              · by_cases hc2 : env.cancelledAt 2
                · refine ⟨2, by omega, ?_⟩
                  simp [waitForProcessReady, delays, waitAttempts, hc0, hp0, hx0, hc1,
                    hp1, hx1, hc2, fullTrace]
                · rcases hp2 : env.probe 2 with _ | e2
                  · refine ⟨3, by omega, ?_⟩
                    simp [waitForProcessReady, delays, waitAttempts, hc0, hp0, hx0,
                      hc1, hp1, hx1, hc2, hp2, fullTrace]
                  · by_cases hx2 : isProcessExitError (some e2)
                    · refine ⟨3, by omega, ?_⟩
                      simp [waitForProcessReady, delays, waitAttempts, hc0, hp0, hx0,
                        hc1, hp1, hx1, hc2, hp2, hx2, fullTrace]
                    · refine ⟨3, by omega, ?_⟩
                      simp [waitForProcessReady, delays, waitAttempts, hc0, hp0, hx0,
                        hc1, hp1, hx1, hc2, hp2, hx2, fullTrace]
  · intro j hj hcanc hfail hcj
    interval_cases j
    · have hw : waitForProcessReady cfg env = (some env.ctxErr, []) := by
        simp [waitForProcessReady, delays, waitAttempts, hcj]
      exact ⟨by rw [hw], by rw [hw]; rfl, by rw [hw]; simp⟩
    · obtain ⟨e0, he0⟩ := Option.ne_none_iff_exists'.mp (hfail 0 (by omega)).1
      have hx0 := (hfail 0 (by omega)).2
      rw [he0] at hx0
      have hw : waitForProcessReady cfg env =
          (some env.ctxErr, [.sleep 100000000, .probe 0]) := by
        simp [waitForProcessReady, delays, waitAttempts, hcanc 0 (by omega),
          he0, hx0, hcj]
      exact ⟨by rw [hw], by rw [hw]; rfl, by rw [hw]; simp⟩
    · obtain ⟨e0, he0⟩ := Option.ne_none_iff_exists'.mp (hfail 0 (by omega)).1
      obtain ⟨e1, he1⟩ := Option.ne_none_iff_exists'.mp (hfail 1 (by omega)).1
      have hx0 := (hfail 0 (by omega)).2
      have hx1 := (hfail 1 (by omega)).2
      rw [he0] at hx0
      rw [he1] at hx1
      have hw : waitForProcessReady cfg env =
          (some env.ctxErr,
            [.sleep 100000000, .probe 0, .sleep 500000000, .probe 1]) := by
        simp [waitForProcessReady, delays, waitAttempts, hcanc 0 (by omega),
          hcanc 1 (by omega), he0, he1, hx0, hx1, hcj]
      exact ⟨by rw [hw], by rw [hw]; rfl, by rw [hw]; simp⟩

/-- Witness for C9: with the context cancelled during the very first
delay, the prober returns the context's error having issued no probe at
all. -/
theorem readiness_delay_before_probe_witness :
    (waitForProcessReady {} envCancelFirst).1 = some envCancelFirst.ctxErr ∧
    (waitForProcessReady {} envCancelFirst).2 = fullTrace.take (2 * 0) ∧
    Ev.probe 0 ∉ (waitForProcessReady {} envCancelFirst).2 := by
  exact (readiness_delay_before_probe {} envCancelFirst).2 0 (by omega)
    (fun i hi => by omega) (fun i hi => by omega) rfl
